import Mathlib

set_option maxHeartbeats 1000000

namespace QRScan

/-- Scanner status, embedding the union type `ScannerStatus` of
src/src/components/QRScanner.tsx line 8:
`'initializing' | 'scanning' | 'detected' | 'error' | 'no-camera'`. -/
inductive ScannerStatus where
  | initializing
  | scanning
  | detected
  | error
  | noCamera
deriving DecidableEq, Repr

/-- One toast notification as passed to the `toast` collaborator: a title, a
description, and whether the `variant: "destructive"` flag was set (the
destructive variant is the error/warning styling; its absence is the
success styling). -/
structure Toast where
  title : String
  description : String
  destructive : Bool
deriving DecidableEq, Repr

/-- A MediaStream handle, reduced to the list of ids of its tracks
(`stream.getTracks()`). -/
structure MediaStream where
  tracks : List Nat
deriving DecidableEq, Repr

/-- The component state of `QRScanner`: the four `useState` cells
(`status`, `statusMessage`, `result`, `isScanning`, lines 15-18), the
`srcObject` of the video element (written only by `startCamera` line 36),
and the `animationFrameRef` scheduling token (lines 13, 60, 84). -/
structure ScannerState where
  status : ScannerStatus
  statusMessage : String
  result : String
  isScanning : Bool
  videoSrcObject : Option MediaStream
  animationFrame : Option Nat
deriving DecidableEq, Repr

/-- The initial state at mount, from the `useState` initializers
(lines 15-18) and the empty refs. -/
def initialState : ScannerState :=
  { status := ScannerStatus.initializing
    statusMessage := "Initializing camera..."
    result := ""
    isScanning := false
    videoSrcObject := none
    animationFrame := none }

/-- A scan session (one mount): the component state plus the list of every
stream the platform handed to this session via `getUserMedia` (the streams
the session owns, whether or not they were attached to the video surface). -/
structure Session where
  state : ScannerState
  owned : List MediaStream
deriving DecidableEq, Repr

/-- The session as created at mount. -/
def initialSession : Session := { state := initialState, owned := [] }

/-- The destructive toast raised by the `catch` branch of `startCamera`
(lines 44-48). -/
def cameraErrorToast : Toast :=
  { title := "Camera Error"
    description := "Unable to access camera. Please check permissions."
    destructive := true }

/-- The success toast raised on a positive decode (lines 74-77). -/
def successToast : Toast :=
  { title := "QR Code Found!"
    description := "Successfully decoded QR code"
    destructive := false }

/-- The toast raised by `handleSubmit` on a non-empty result (lines 90-93);
its description interpolates the result. -/
def submittedToast (r : String) : Toast :=
  { title := "Result Submitted"
    description := "Logged to console: " ++ r
    destructive := false }

/-- The destructive toast raised by `handleSubmit` on an empty result
(lines 96-100). -/
def noResultToast : Toast :=
  { title := "No Result"
    description := "Please scan a QR code first"
    destructive := true }

/-- Embedding of `startCamera` (lines 25-50) lifted to the session.
`acquired` is the outcome of the awaited `getUserMedia` call: `some stream`
when the platform grants a stream (which the session then owns), `none`
when the call throws (permission denied, no device, API absent).
`videoPresent` is whether `videoRef.current` is non-null at line 35.
On success with the surface present the stream is attached, `isScanning`
is set and status becomes `scanning` (lines 36-39); on success with the
surface absent nothing else happens (the `if` body is skipped); on failure
status becomes `no-camera` and one destructive toast is raised, with no
retry (lines 42-48). Returns the new session and the toasts raised. -/
def startCamera (acquired : Option MediaStream) (videoPresent : Bool)
    (sess : Session) : Session × List Toast :=
  match acquired with
  | some stream =>
      let sess' : Session := { sess with owned := sess.owned ++ [stream] }
      if videoPresent then
        ({ sess' with state := { sess'.state with
              videoSrcObject := some stream
              isScanning := true
              status := ScannerStatus.scanning
              statusMessage := "Scanning for QR code..." } }, [])
      else (sess', [])
  | none =>
      ({ sess with state := { sess.state with
            status := ScannerStatus.noCamera
            statusMessage := "Camera access denied or not available" } },
        [cameraErrorToast])

/-- The per-tick environment of one `scanQRCode` invocation: whether
`videoRef.current` and `canvasRef.current` are non-null (line 53), whether
`canvas.getContext` returned a context and the video has
`HAVE_ENOUGH_DATA` (line 59), the outcome of the `jsQR` call on the
captured frame (`some payload` when `code` is truthy, carrying
`code.data`; `none` when `jsQR` returns null, line 69), and the token the
platform returns from `requestAnimationFrame` for this tick. -/
structure TickEnv where
  videoPresent : Bool
  canvasPresent : Bool
  contextOk : Bool
  haveEnoughData : Bool
  decode : Option String
  nextToken : Nat
deriving DecidableEq, Repr

/-- Embedding of one tick of `scanQRCode` (lines 52-85).
Line 53: if the video surface, the canvas, or the `isScanning` gate is
missing, return without doing anything (no reschedule).
Lines 59-62: if the context is unavailable or the video lacks data,
reschedule and return.
Lines 71-77: on a positive decode store the payload in `result`, set
status `detected`, raise the success toast.
Lines 78-82: on a miss, set status `scanning` if it is not already.
Line 84: reschedule (reached by both decode branches).
Returns the post-state and the toasts raised by this tick. -/
def scanQRCode (env : TickEnv) (s : ScannerState) : ScannerState × List Toast :=
  if !env.videoPresent || !env.canvasPresent || !s.isScanning then
    (s, [])
  else if !env.contextOk || !env.haveEnoughData then
    ({ s with animationFrame := some env.nextToken }, [])
  else
    match env.decode with
    | some payload =>
        ({ s with
            result := payload
            status := ScannerStatus.detected
            statusMessage := "QR code detected and decoded!"
            animationFrame := some env.nextToken },
          [successToast])
    | none =>
        let s' :=
          if s.status ≠ ScannerStatus.scanning then
            { s with
                status := ScannerStatus.scanning
                statusMessage := "Scanning for QR code..." }
          else s
        ({ s' with animationFrame := some env.nextToken }, [])

/-- Run a finite sequence of scan-loop ticks, threading the state. -/
def runTicks (envs : List TickEnv) (s : ScannerState) : ScannerState :=
  match envs with
  | [] => s
  | e :: rest => runTicks rest (scanQRCode e s).1

/-- The observable effects of one `handleSubmit` invocation: the state it
leaves behind, the `console.log` entries (each a pair of the two arguments
passed at line 89), the `alert` messages (line 94), and the toasts. -/
structure SubmitEffects where
  state : ScannerState
  logs : List (String × String)
  alerts : List String
  toasts : List Toast
deriving DecidableEq, Repr

/-- Embedding of `handleSubmit` (lines 87-102). `if (result)` is string
truthiness: taken exactly when `result` is non-empty. The non-empty branch
logs the pair given to `console.log('QR Code Result:', result)`, alerts
the template string `QR Code Result: ` followed by the result, and raises
the submitted toast; the empty branch raises only the destructive
no-result toast. The state is returned unchanged: `handleSubmit` calls no
setter. -/
def handleSubmit (s : ScannerState) : SubmitEffects :=
  if s.result ≠ "" then
    { state := s
      logs := [("QR Code Result:", s.result)]
      alerts := ["QR Code Result: " ++ s.result]
      toasts := [submittedToast s.result] }
  else
    { state := s, logs := [], alerts := [], toasts := [noResultToast] }

/-- What the unmount cleanup does: which scheduling token it cancels and
on which track ids it calls `stop`. -/
structure CleanupResult where
  cancelled : Option Nat
  stoppedTracks : List Nat
deriving DecidableEq, Repr

/-- Embedding of the mount-effect cleanup (lines 107-115). It cancels the
pending `animationFrameRef` token if one is set, and stops every track of
`videoRef.current?.srcObject` — only the stream reachable through the
video surface; a stream the session owns but never attached is not
touched. `videoPresent` is whether `videoRef.current` is non-null during
cleanup. -/
def unmountCleanup (videoPresent : Bool) (sess : Session) : CleanupResult :=
  { cancelled := sess.state.animationFrame
    stoppedTracks :=
      if videoPresent then
        match sess.state.videoSrcObject with
        | some stream => stream.tracks
        | none => []
      else [] }

/-! Concrete fixtures used by witnesses and counterexamples. -/

/-- A one-track stream granted by the platform. -/
def streamA : MediaStream := { tracks := [0] }

/-- The session after a successful acquisition with the video surface
present: status `scanning`, `isScanning` set, empty result. -/
def sessionAfterStart : Session := (startCamera (some streamA) true initialSession).1

/-- The component state right after a successful camera start. -/
def scanStart : ScannerState := sessionAfterStart.state

/-- A tick environment whose decode attempt misses, all guards passing. -/
def missEnv : TickEnv :=
  { videoPresent := true
    canvasPresent := true
    contextOk := true
    haveEnoughData := true
    decode := none
    nextToken := 2 }

/-- A tick environment that decodes the payload HELLO. -/
def helloEnv : TickEnv := { missEnv with decode := some "HELLO", nextToken := 7 }

/-- Five consecutive miss ticks, as in the scenario of the testable
properties. -/
def fiveMisses : List TickEnv := [missEnv, missEnv, missEnv, missEnv, missEnv]

/-! Helper lemmas about single ticks and tick sequences. -/

/-- A tick never changes the `isScanning` gate: `scanQRCode` calls
`setIsScanning` nowhere. -/
theorem scanQRCode_isScanning (env : TickEnv) (s : ScannerState) :
    (scanQRCode env s).1.isScanning = s.isScanning := by
  unfold scanQRCode
  split
  · rfl
  · split
    · rfl
    · split
      · rfl
      · simp only []
        split <;> rfl

/-- A miss tick never changes `result`. -/
theorem scanQRCode_miss_result (env : TickEnv) (s : ScannerState)
    (hd : env.decode = none) : (scanQRCode env s).1.result = s.result := by
  unfold scanQRCode
  split
  · rfl
  · split
    · rfl
    · rw [hd]
      simp only []
      split <;> rfl

/-- A miss tick from status `scanning` stays in status `scanning`. -/
theorem scanQRCode_miss_status (env : TickEnv) (s : ScannerState)
    (hs : s.status = ScannerStatus.scanning) (hd : env.decode = none) :
    (scanQRCode env s).1.status = ScannerStatus.scanning := by
  unfold scanQRCode
  split
  · exact hs
  · split
    · exact hs
    · rw [hd]
      simp only []
      split
      · rfl
      · exact hs

/-- Running ticks preserves the `isScanning` gate. -/
theorem runTicks_isScanning (envs : List TickEnv) (s : ScannerState) :
    (runTicks envs s).isScanning = s.isScanning := by
  induction envs generalizing s with
  | nil => rfl
  | cons e rest ih => rw [runTicks, ih, scanQRCode_isScanning]

/-- Running any sequence of miss ticks from status `scanning` keeps status
`scanning` and leaves `result` unchanged. -/
theorem runTicks_miss_inv (envs : List TickEnv) (s : ScannerState)
    (hs : s.status = ScannerStatus.scanning)
    (hmiss : ∀ e ∈ envs, e.decode = none) :
    (runTicks envs s).status = ScannerStatus.scanning ∧
      (runTicks envs s).result = s.result := by
  induction envs generalizing s with
  | nil => exact ⟨hs, rfl⟩
  | cons e rest ih =>
      have hd : e.decode = none := hmiss e (List.mem_cons_self e rest)
      have hrest : ∀ x ∈ rest, x.decode = none :=
        fun x hx => hmiss x (List.mem_cons_of_mem e hx)
      have step := ih (scanQRCode e s).1 (scanQRCode_miss_status e s hs hd) hrest
      exact ⟨step.1, by rw [runTicks, step.2, scanQRCode_miss_result e s hd]⟩

/-- A reachable state with status `detected`: one successful decode after a
successful camera start. -/
def detectedState : ScannerState := (scanQRCode helloEnv scanStart).1

/-- A tick that decodes the payload A. -/
def envA : TickEnv := { missEnv with decode := some "A", nextToken := 3 }

/-- A tick that decodes the payload B. -/
def envB : TickEnv := { missEnv with decode := some "B", nextToken := 4 }

/-- C1 counterexample: from the reachable state with status `detected`
(reached by decoding HELLO right after a successful start), one further
tick whose decode attempt misses moves status back to `scanning` — lines
78-82 re-enter `scanning` whenever the current status differs from it,
`detected` included, so the claimed absorbing behaviour of `detected`
fails. -/
theorem C1_counterexample :
    detectedState.status = ScannerStatus.detected ∧
    (scanQRCode missEnv detectedState).1.status = ScannerStatus.scanning :=
  ⟨rfl, rfl⟩

/-- C1 (amended): once status is `detected`, a subsequent processed tick
keeps status `detected` only while its decode attempt succeeds; a
processed tick whose decode attempt misses transitions status from
`detected` back to `scanning` (the loop keeps running after detection and
lines 78-82 reset any non-`scanning` status on a miss). -/
theorem C1_amended_detected_transitions (env : TickEnv) (s : ScannerState)
    (hs : s.status = ScannerStatus.detected)
    (hv : env.videoPresent = true) (hc : env.canvasPresent = true)
    (hg : s.isScanning = true) (hctx : env.contextOk = true)
    (hed : env.haveEnoughData = true) :
    (env.decode = none → (scanQRCode env s).1.status = ScannerStatus.scanning) ∧
    (∀ p, env.decode = some p →
      (scanQRCode env s).1.status = ScannerStatus.detected) := by
  constructor
  · intro hd
    unfold scanQRCode
    rw [hv, hc, hg, hctx, hed, hd]
    simp [hs]
  · intro p hd
    unfold scanQRCode
    rw [hv, hc, hg, hctx, hed, hd]
    rfl

/-- C1 amended witness: at the concrete reachable `detected` state, a miss
tick yields `scanning` and a successful tick keeps `detected`. -/
theorem C1_amended_witness :
    (scanQRCode missEnv detectedState).1.status = ScannerStatus.scanning ∧
    (scanQRCode helloEnv detectedState).1.status = ScannerStatus.detected :=
  ⟨(C1_amended_detected_transitions missEnv detectedState rfl rfl rfl rfl rfl
      rfl).1 rfl,
   (C1_amended_detected_transitions helloEnv detectedState rfl rfl rfl rfl rfl
      rfl).2 "HELLO" rfl⟩

/-- C2 counterexample: after a successful start, a first tick decodes A and
sets `result` to A; a later tick decodes B and overwrites `result` with B,
a different value — `setResult(code.data)` at line 72 runs on every
successful decode, so `decodedResult` is not assigned at most once. -/
theorem C2_counterexample :
    (scanQRCode envA scanStart).1.result = "A" ∧
    (scanQRCode envB (scanQRCode envA scanStart).1).1.result = "B" ∧
    ("B" : String) ≠ "A" :=
  ⟨rfl, rfl, by decide⟩

/-- C2 (amended): `result` is written only by successful decode ticks:
every tick either leaves `result` unchanged or sets it to exactly the
payload its decode attempt returned; in particular miss ticks and guarded
ticks never change it, but each successful decode overwrites it. -/
theorem C2_amended_result_only_from_decode (env : TickEnv) (s : ScannerState) :
    (scanQRCode env s).1.result = s.result ∨
      env.decode = some (scanQRCode env s).1.result := by
  cases hd : env.decode with
  | none => exact Or.inl (scanQRCode_miss_result env s hd)
  | some p =>
      unfold scanQRCode
      rw [hd]
      split
      · exact Or.inl rfl
      · split
        · exact Or.inl rfl
        · exact Or.inr rfl

/-- C3: starting from status `scanning` with empty `result` and the
scanning gate set, after any sequence of miss ticks, the first tick whose
decode attempt returns a non-empty payload p (with the surfaces present,
a context, and enough video data) ends with status `detected`, `result`
exactly p, and exactly one success toast raised by that tick. -/
theorem C3_first_success (envs : List TickEnv) (s : ScannerState)
    (hst : s.status = ScannerStatus.scanning) (hres : s.result = "")
    (hg : s.isScanning = true)
    (hmiss : ∀ e ∈ envs, e.decode = none)
    (efin : TickEnv) (p : String) (hp : p ≠ "")
    (hdec : efin.decode = some p)
    (hv : efin.videoPresent = true) (hc : efin.canvasPresent = true)
    (hctx : efin.contextOk = true) (hed : efin.haveEnoughData = true) :
    (scanQRCode efin (runTicks envs s)).1.status = ScannerStatus.detected ∧
    (scanQRCode efin (runTicks envs s)).1.result = p ∧
    (scanQRCode efin (runTicks envs s)).2 = [successToast] := by
  have hgate : (runTicks envs s).isScanning = true := by
    rw [runTicks_isScanning]; exact hg
  unfold scanQRCode
  rw [hv, hc, hgate, hctx, hed, hdec]
  exact ⟨rfl, rfl, rfl⟩

/-- C3 witness: the scenario of the spec — successful start, five miss
ticks, then a tick decoding HELLO. -/
theorem C3_first_success_witness :
    (scanQRCode helloEnv (runTicks fiveMisses scanStart)).1.status =
      ScannerStatus.detected ∧
    (scanQRCode helloEnv (runTicks fiveMisses scanStart)).1.result = "HELLO" ∧
    (scanQRCode helloEnv (runTicks fiveMisses scanStart)).2 = [successToast] :=
  C3_first_success fiveMisses scanStart rfl rfl rfl (by decide) helloEnv
    "HELLO" (by decide) rfl rfl rfl rfl rfl

/-- C4: from status `scanning` with empty `result`, after every prefix of a
sequence of ticks all of whose decode attempts miss, status is still
`scanning` and `result` is still empty — the post-state of every tick of
an all-miss run satisfies the invariant. -/
theorem C4_all_miss (envs : List TickEnv) (s : ScannerState)
    (hst : s.status = ScannerStatus.scanning) (hres : s.result = "")
    (hmiss : ∀ e ∈ envs, e.decode = none) (n : Nat) :
    (runTicks (List.take n envs) s).status = ScannerStatus.scanning ∧
    (runTicks (List.take n envs) s).result = "" := by
  have h := runTicks_miss_inv (List.take n envs) s hst
    (fun e he => hmiss e (List.take_subset n envs he))
  exact ⟨h.1, h.2.trans hres⟩

/-- C4 witness: five consecutive miss ticks after a successful start keep
status `scanning` and `result` empty. -/
theorem C4_all_miss_witness :
    (runTicks (List.take 5 fiveMisses) scanStart).status =
      ScannerStatus.scanning ∧
    (runTicks (List.take 5 fiveMisses) scanStart).result = "" :=
  C4_all_miss fiveMisses scanStart rfl rfl (by decide) 5

/-- C5: a processed tick whose decode attempt succeeds still registers a
new pending frame request — line 84 runs after the `detected` transition,
so a successful detection does not halt the loop. -/
theorem C5_success_reschedules (env : TickEnv) (s : ScannerState) (p : String)
    (hdec : env.decode = some p)
    (hv : env.videoPresent = true) (hc : env.canvasPresent = true)
    (hg : s.isScanning = true) (hctx : env.contextOk = true)
    (hed : env.haveEnoughData = true) :
    (scanQRCode env s).1.animationFrame = some env.nextToken := by
  unfold scanQRCode
  rw [hv, hc, hg, hctx, hed, hdec]
  rfl

/-- C5 witness: the HELLO-decoding tick right after a successful start
leaves a fresh pending frame request. -/
theorem C5_success_reschedules_witness :
    (scanQRCode helloEnv scanStart).1.animationFrame =
      some helloEnv.nextToken :=
  C5_success_reschedules helloEnv scanStart "HELLO" rfl rfl rfl rfl rfl rfl

/-- C6: when acquisition fails (the `getUserMedia` call throws: permission
denied, no device, or API absent), the post-state has status `no-camera` —
never `scanning` — `isScanning` stays false, and exactly one destructive
(error) toast is raised; the embedded `startCamera` performs a single
acquisition attempt and its catch branch schedules no retry. -/
theorem C6_acquisition_failure (videoPresent : Bool) (sess : Session)
    (hsc : sess.state.isScanning = false) :
    (startCamera none videoPresent sess).1.state.status =
      ScannerStatus.noCamera ∧
    (startCamera none videoPresent sess).1.state.status ≠
      ScannerStatus.scanning ∧
    (startCamera none videoPresent sess).1.state.isScanning = false ∧
    (startCamera none videoPresent sess).2 = [cameraErrorToast] ∧
    cameraErrorToast.destructive = true := by
  refine ⟨rfl, ?_, hsc, rfl, rfl⟩
  intro h
  exact ScannerStatus.noConfusion h

/-- C6 witness: failing acquisition at mount, with the video surface
present. -/
theorem C6_acquisition_failure_witness :
    (startCamera none true initialSession).1.state.status =
      ScannerStatus.noCamera ∧
    (startCamera none true initialSession).1.state.status ≠
      ScannerStatus.scanning ∧
    (startCamera none true initialSession).1.state.isScanning = false ∧
    (startCamera none true initialSession).2 = [cameraErrorToast] ∧
    cameraErrorToast.destructive = true :=
  C6_acquisition_failure true initialSession rfl

/-- C7: submitting while `result` is empty raises only the destructive
no-result toast — no log entry, no alert, no success toast — and leaves
the state unchanged. -/
theorem C7_empty_submit (s : ScannerState) (h : s.result = "") :
    handleSubmit s =
      { state := s, logs := [], alerts := [], toasts := [noResultToast] } ∧
    noResultToast.destructive = true := by
  refine ⟨?_, rfl⟩
  unfold handleSubmit
  rw [if_neg (fun hn => hn h)]

/-- C7 witness: submitting from the initial state (empty result). -/
theorem C7_empty_submit_witness :
    handleSubmit initialState =
      { state := initialState, logs := [], alerts := [],
        toasts := [noResultToast] } ∧
    noResultToast.destructive = true :=
  C7_empty_submit initialState rfl

/-- A tick that decodes the payload X. -/
def envX : TickEnv := { missEnv with decode := some "X", nextToken := 5 }

/-- A reachable state whose result is X. -/
def stateX : ScannerState := (scanQRCode envX scanStart).1

/-- C8 counterexample: with `result` = X, the blocking acknowledgment
raised by submit is the prefixed template string, not exactly X — line 94
alerts a decorated variant, so the claim that exactly X is acknowledged
fails. -/
theorem C8_counterexample :
    stateX.result = "X" ∧
    (handleSubmit stateX).alerts = ["QR Code Result: X"] ∧
    (handleSubmit stateX).alerts ≠ ["X"] :=
  ⟨rfl, rfl, by decide⟩

/-- C8 (amended): submitting with non-empty `result` = X logs the pair of
arguments given to the console (the fixed label and exactly X), raises a
blocking acknowledgment whose message is the label-prefixed variant of X
(not exactly X), raises the success toast, and leaves the state
unchanged. -/
theorem C8_amended_submit_nonempty (s : ScannerState) (x : String)
    (hx : s.result = x) (hne : x ≠ "") :
    handleSubmit s =
      { state := s
        logs := [("QR Code Result:", x)]
        alerts := ["QR Code Result: " ++ x]
        toasts := [submittedToast x] } := by
  subst hx
  unfold handleSubmit
  rw [if_pos hne]

/-- C8 amended witness: submitting from the reachable state with result
X. -/
theorem C8_amended_witness :
    handleSubmit stateX =
      { state := stateX
        logs := [("QR Code Result:", "X")]
        alerts := ["QR Code Result: " ++ "X"]
        toasts := [submittedToast "X"] } :=
  C8_amended_submit_nonempty stateX "X" rfl (by decide)

/-- The session after acquisition succeeded while the video surface was
absent: the platform handed over a stream the session owns, but it was
never attached. -/
def leakedSession : Session := (startCamera (some streamA) false initialSession).1

/-- C9 counterexample: in the session that acquired a stream while the
video surface was absent, the session owns a stream with track 0, yet the
unmount cleanup stops no track at all — lines 111-114 stop only tracks
reachable through `videoRef.current?.srcObject`, so a track of an owned
stream remains live after unmount, refuting the claim for this session
state. -/
theorem C9_counterexample :
    leakedSession.owned = [streamA] ∧
    streamA.tracks = [0] ∧
    (unmountCleanup true leakedSession).stoppedTracks = [] ∧
    (0 : Nat) ∉ (unmountCleanup true leakedSession).stoppedTracks :=
  ⟨rfl, rfl, rfl, by decide⟩

/-- C9 (amended): the unmount cleanup always cancels exactly the pending
scheduling token (if one is outstanding), and stops every track of the
stream attached to the video surface when the surface is present; a stream
the session owns but never attached is not reachable through the surface
and its tracks are not stopped. -/
theorem C9_amended_cleanup (videoPresent : Bool) (sess : Session)
    (stream : MediaStream)
    (hattach : sess.state.videoSrcObject = some stream)
    (hv : videoPresent = true) :
    (unmountCleanup videoPresent sess).cancelled =
      sess.state.animationFrame ∧
    (unmountCleanup videoPresent sess).stoppedTracks = stream.tracks := by
  refine ⟨rfl, ?_⟩
  unfold unmountCleanup
  rw [hv, hattach]
  rfl

/-- C9 amended witness: cleanup after a successful start with the surface
present stops exactly the attached stream track. -/
theorem C9_amended_witness :
    (unmountCleanup true sessionAfterStart).cancelled =
      sessionAfterStart.state.animationFrame ∧
    (unmountCleanup true sessionAfterStart).stoppedTracks = streamA.tracks :=
  C9_amended_cleanup true sessionAfterStart streamA rfl rfl

/-- C10: if acquisition succeeds while the video surface reference is null,
the stream is never attached and the component state is completely
unchanged (so `isScanning` stays false and status stays as it was,
`initializing` at mount), no toast is raised, the session still owns the
acquired stream, and the unmount cleanup — which only stops tracks
reachable through the video surface — stops no track of it. -/
theorem C10_null_surface (sess : Session) (stream : MediaStream)
    (hsrc : sess.state.videoSrcObject = none) :
    (startCamera (some stream) false sess).1.state = sess.state ∧
    (startCamera (some stream) false sess).2 = [] ∧
    (startCamera (some stream) false sess).1.owned = sess.owned ++ [stream] ∧
    ∀ vp, (unmountCleanup vp
      (startCamera (some stream) false sess).1).stoppedTracks = [] := by
  refine ⟨rfl, rfl, rfl, fun vp => ?_⟩
  have h2 : (startCamera (some stream) false sess).1.state.videoSrcObject =
      none := hsrc
  unfold unmountCleanup
  cases vp
  · rfl
  · rw [h2]
    rfl

/-- C10 witness: acquisition succeeds at mount with a null surface; the
cleanup with the surface present at unmount still stops nothing. -/
theorem C10_null_surface_witness :
    (startCamera (some streamA) false initialSession).1.state =
      initialSession.state ∧
    (startCamera (some streamA) false initialSession).2 = [] ∧
    (startCamera (some streamA) false initialSession).1.owned =
      initialSession.owned ++ [streamA] ∧
    (unmountCleanup true
      (startCamera (some streamA) false initialSession).1).stoppedTracks =
      [] := by
  have h := C10_null_surface initialSession streamA rfl
  exact ⟨h.1, h.2.1, h.2.2.1, h.2.2.2 true⟩

end QRScan
